import Mathlib

/-!
# Verification of the cs171project data core

Shallow embedding of the spreadsheet-extraction pipeline and the metric
derivation layer of the cs171project repository (js/dataHelpers.js,
js/dataOutcomes.js, scripts/clean_naep_data.js, js/visualization1.js,
js/visualization5_integrated.js), together with theorems settling the
specification claims about them.

Modelling conventions:
* JavaScript numbers are modelled as exact rationals (ℚ); the claims under
  study treat values abstractly and never depend on double rounding.
* A spreadsheet cell (as produced by sheet_to_json with defval null) is a
  number, a string, or null; a missing array index (undefined) behaves like
  null for every operation the code performs on it, so both are the
  constructor Cell.null.
* Absent / null / NaN-guarded values are Option ℚ.
-/

namespace CS171

/-- A raw spreadsheet cell: number, string, or null (also covering an
out-of-range index, i.e. undefined, which every modelled operation treats
the same way). -/
inductive Cell
  | num (q : ℚ)
  | str (s : String)
  | null
deriving DecidableEq

/-- A row of the raw grid. -/
abbrev Row := List Cell

/-! ## Basic string helpers (models of the JS string operations used) -/

/-- Model of String.prototype.trim: drop leading and trailing whitespace. -/
def trimStr (s : String) : String :=
  String.mk (((s.data.dropWhile Char.isWhitespace).reverse.dropWhile
    Char.isWhitespace).reverse)

/-- Model of String.prototype.toLowerCase (ASCII, which covers every string
the code compares). -/
def lowerStr (s : String) : String :=
  String.mk (s.data.map Char.toLower)

/-- Is the first list a prefix of the second (character lists). -/
def listStartsWith : List Char → List Char → Bool
  | [], _ => true
  | _ :: _, [] => false
  | a :: as, b :: bs => a == b && listStartsWith as bs

/-- Does needle occur as a contiguous run inside hay (character lists)?
Model of String.prototype.includes. -/
def listOccurs (needle : List Char) : List Char → Bool
  | [] => listStartsWith needle []
  | b :: bs => listStartsWith needle (b :: bs) || listOccurs needle bs

/-- Model of s.includes(pat). -/
def containsSub (s pat : String) : Bool :=
  listOccurs pat.data s.data

/-- Numeric value of a run of decimal digit characters. -/
def digitsVal (ds : List Char) : Nat :=
  ds.foldl (fun a c => a * 10 + (c.toNat - 48)) 0

/-- Model of the string conversion String(cell || ''): null (and undefined)
become "", the number 0 is falsy and becomes "", other numbers print as in
JS. Non-integer rationals are rendered with a slash rather than the JS
decimal expansion; every pattern the code matches against such strings
(the anchored year pattern, the state-name lookup, the label tokens) only
accepts digit-only or alphabetic strings, so the two renderings are
indistinguishable for the embedded operations. -/
def cellToStr : Cell → String
  | Cell.null => ""
  | Cell.str s => s
  | Cell.num q =>
      if q = 0 then ""
      else if q.den = 1 then
        (if q.num < 0 then "-" ++ toString q.num.natAbs else toString q.num.natAbs)
      else toString q.num ++ "/" ++ toString q.den

/-- The fixed SES score gap used by both js/dataHelpers.js and
js/visualization1.js. -/
def sesGap : ℚ := 18

/-! ## State name table (js/dataHelpers.js, loadAllNAEPData) -/

/-- The stateNameToCode object of js/dataHelpers.js, in source order,
including the aggregate entry mapping "United States" to "National". -/
def stateEntries : List (String × String) :=
  [("Alabama", "AL"), ("Alaska", "AK"), ("Arizona", "AZ"), ("Arkansas", "AR"),
   ("California", "CA"), ("Colorado", "CO"), ("Connecticut", "CT"),
   ("Delaware", "DE"), ("District of Columbia", "DC"), ("Florida", "FL"),
   ("Georgia", "GA"), ("Hawaii", "HI"), ("Idaho", "ID"), ("Illinois", "IL"),
   ("Indiana", "IN"), ("Iowa", "IA"), ("Kansas", "KS"), ("Kentucky", "KY"),
   ("Louisiana", "LA"), ("Maine", "ME"), ("Maryland", "MD"),
   ("Massachusetts", "MA"), ("Michigan", "MI"), ("Minnesota", "MN"),
   ("Mississippi", "MS"), ("Missouri", "MO"), ("Montana", "MT"),
   ("Nebraska", "NE"), ("Nevada", "NV"), ("New Hampshire", "NH"),
   ("New Jersey", "NJ"), ("New Mexico", "NM"), ("New York", "NY"),
   ("North Carolina", "NC"), ("North Dakota", "ND"), ("Ohio", "OH"),
   ("Oklahoma", "OK"), ("Oregon", "OR"), ("Pennsylvania", "PA"),
   ("Rhode Island", "RI"), ("South Carolina", "SC"), ("South Dakota", "SD"),
   ("Tennessee", "TN"), ("Texas", "TX"), ("Utah", "UT"), ("Vermont", "VT"),
   ("Virginia", "VA"), ("Washington", "WA"), ("West Virginia", "WV"),
   ("Wisconsin", "WI"), ("Wyoming", "WY"), ("United States", "National")]

/-- Property access stateNameToCode[name] of js/dataHelpers.js. -/
def stateNameToCode (name : String) : Option String :=
  List.lookup name stateEntries

/-- The stateNameToCode object of scripts/clean_naep_data.js, which has the
same 51 state entries but no "United States" entry. -/
def cleanStateEntries : List (String × String) :=
  [("Alabama", "AL"), ("Alaska", "AK"), ("Arizona", "AZ"), ("Arkansas", "AR"),
   ("California", "CA"), ("Colorado", "CO"), ("Connecticut", "CT"),
   ("Delaware", "DE"), ("District of Columbia", "DC"), ("Florida", "FL"),
   ("Georgia", "GA"), ("Hawaii", "HI"), ("Idaho", "ID"), ("Illinois", "IL"),
   ("Indiana", "IN"), ("Iowa", "IA"), ("Kansas", "KS"), ("Kentucky", "KY"),
   ("Louisiana", "LA"), ("Maine", "ME"), ("Maryland", "MD"),
   ("Massachusetts", "MA"), ("Michigan", "MI"), ("Minnesota", "MN"),
   ("Mississippi", "MS"), ("Missouri", "MO"), ("Montana", "MT"),
   ("Nebraska", "NE"), ("Nevada", "NV"), ("New Hampshire", "NH"),
   ("New Jersey", "NJ"), ("New Mexico", "NM"), ("New York", "NY"),
   ("North Carolina", "NC"), ("North Dakota", "ND"), ("Ohio", "OH"),
   ("Oklahoma", "OK"), ("Oregon", "OR"), ("Pennsylvania", "PA"),
   ("Rhode Island", "RI"), ("South Carolina", "SC"), ("South Dakota", "SD"),
   ("Tennessee", "TN"), ("Texas", "TX"), ("Utah", "UT"), ("Vermont", "VT"),
   ("Virginia", "VA"), ("Washington", "WA"), ("West Virginia", "WV"),
   ("Wisconsin", "WI"), ("Wyoming", "WY")]

/-! ## Numeric cell coercion -/

/-- The leading-number extraction of the coercion rule: the JS regex
match(/^(\d+\.?\d*)/) followed by parseFloat on the captured group, which
is none exactly when the string does not start with a digit. -/
def leadingScore (s : String) : Option ℚ :=
  let intPart := s.data.takeWhile Char.isDigit
  let rest := s.data.dropWhile Char.isDigit
  if intPart = [] then none
  else
    match rest with
    | '.' :: rest2 =>
      let fracPart := rest2.takeWhile Char.isDigit
      some ((digitsVal intPart : ℚ) +
        (digitsVal fracPart : ℚ) / (10 : ℚ) ^ fracPart.length)
    | _ => some ((digitsVal intPart : ℚ))

/-- The cell coercion of js/dataHelpers.js loadAllNAEPData: a numeric cell
is accepted as-is (there is no positivity filter there), a string cell
yields its leading number if any, anything else is absent. -/
def coerceScoreCell (c : Cell) : Option ℚ :=
  match c with
  | Cell.num q => some q
  | Cell.str s => leadingScore s
  | Cell.null => none

/-- The cell coercion of scripts/clean_naep_data.js parseNAEPFile: like
coerceScoreCell but values ≤ 0 are rejected (score > 0 is required before
storing). -/
def coerceScoreCellClean (c : Cell) : Option ℚ :=
  match c with
  | Cell.null => none
  | Cell.num q => if 0 < q then some q else none
  | Cell.str s =>
    match leadingScore s with
    | some q => if 0 < q then some q else none
    | none => none

/-! ## Header / data-start location (js/dataHelpers.js) -/

/-- The anchored year regex /^(199[2-9]|200[0-9]|201[0-9]|202[0-2])$/:
exactly a four-digit number between 1992 and 2022. -/
def yearPattern (s : String) : Bool :=
  s.data.length == 4 && s.data.all Char.isDigit &&
    (Nat.ble 1992 (digitsVal s.data) && Nat.ble (digitsVal s.data) 2022)

/-- Strategy 1: scan the first 15 rows for a first cell whose trimmed,
lowercased text contains "state" or "jurisdiction"; header = that row,
data start = next row. -/
def strategy1 : List Row → Nat → Option (Nat × Nat)
  | [], _ => none
  | r :: rest, i =>
    if 15 ≤ i then none
    else
      let firstCell := lowerStr (trimStr (cellToStr (r.getD 0 Cell.null)))
      if containsSub firstCell "state" || containsSub firstCell "jurisdiction" then
        some (i, i + 1)
      else strategy1 rest (i + 1)

/-- Count of year-pattern cells among columns 1..14 of a row (the JS loop
runs j from 1 to min(row.length, 15)). -/
def rowYearCount (r : Row) : Nat :=
  ((r.take 15).drop 1).countP (fun c => yearPattern (trimStr (cellToStr c)))

/-- Strategy 2: scan the first 15 rows for one with at least 3 year-pattern
cells among its early columns; header = that row, data start = next row. -/
def strategy2 : List Row → Nat → Option (Nat × Nat)
  | [], _ => none
  | r :: rest, i =>
    if 15 ≤ i then none
    else if 3 ≤ rowYearCount r then some (i, i + 1)
    else strategy2 rest (i + 1)

/-- Does any cell of the row (column 0 included) match the year pattern? -/
def rowHasYear (r : Row) : Bool :=
  r.any (fun c => yearPattern (trimStr (cellToStr c)))

/-- First index j in [lo, hi) whose row contains a year-pattern cell. -/
def firstYearRowIn (rows : List Row) (lo hi : Nat) : Option Nat :=
  ((List.range hi).drop lo).find? (fun j => rowHasYear (rows.getD j []))

/-- Strategy 3: scan the first 30 rows for the first cell resolvable via
the state table (or equal to "United States"); back-scan the 5 rows above
it for one containing a year cell; header = that row, data start = the
state row. -/
def strategy3 (allRows : List Row) : List Row → Nat → Option (Nat × Nat)
  | [], _ => none
  | r :: rest, i =>
    if 30 ≤ i then none
    else
      let firstCell := trimStr (cellToStr (r.getD 0 Cell.null))
      if (stateNameToCode firstCell).isSome || firstCell == "United States" then
        match firstYearRowIn allRows (i - 5) i with
        | some j => some (j, i)
        | none => strategy3 allRows rest (i + 1)
      else strategy3 allRows rest (i + 1)

/-- The ordered fallback search of js/dataHelpers.js: strategy 1, then
strategy 2 only if strategy 1 left the indices unset, then strategy 3 only
if both did. Returns (headerRowIndex, dataStartRow). -/
def locateHeader (rows : List Row) : Option (Nat × Nat) :=
  match strategy1 rows 0 with
  | some p => some p
  | none =>
    match strategy2 rows 0 with
    | some p => some p
    | none => strategy3 rows rows 0

/-- Year-column enumeration: every column from index 1 on whose trimmed
header cell matches the year pattern, paired with the parsed year. -/
def findYearColumns (headerRow : Row) : List (Nat × Nat) :=
  headerRow.enum.filterMap (fun p =>
    if 1 ≤ p.1 ∧ yearPattern (trimStr (cellToStr p.2)) = true then
      some (p.1, digitsVal (trimStr (cellToStr p.2)).data)
    else none)

/-- The stable descending sort by year followed by taking index 0: the
first column holding the maximum year. -/
def pickLatest (c : Nat × Nat) (rest : List (Nat × Nat)) : Nat × Nat :=
  rest.foldl (fun best x => if best.2 < x.2 then x else best) c

/-! ## Row classification (js/dataHelpers.js) -/

/-- The per-state record built by js/dataHelpers.js: Low/Middle/High score
bands plus the national average. -/
structure ScoreBands where
  low : Option ℚ
  middle : Option ℚ
  high : Option ℚ
  nationalAverage : Option ℚ
deriving DecidableEq

/-- The result of loadAllNAEPData: the per-state map plus the national
average for the target year. -/
structure NAEPTable where
  stateData : List (String × ScoreBands)
  nationalAvg : Option ℚ
deriving DecidableEq

/-- Map.set semantics: overwrite in place if the key exists, else append. -/
def setKey {α β : Type} [BEq α] (m : List (α × β)) (k : α) (v : β) :
    List (α × β) :=
  if m.any (fun p => p.1 == k) then
    m.map (fun p => if p.1 == k then (k, v) else p)
  else m ++ [(k, v)]

/-- The aggregate-row test of js/dataHelpers.js:
firstCell === 'United States' || firstCell.toLowerCase().includes('united states'). -/
def isAggregateCell (firstCell : String) : Bool :=
  firstCell == "United States" ||
    containsSub (lowerStr firstCell) "united states"

/-- The national-average update performed on an aggregate row: a numeric
cell replaces the average, a string cell replaces it only when a leading
number matches, anything else leaves it unchanged. -/
def aggValue (cur : Option ℚ) (c : Cell) : Option ℚ :=
  match c with
  | Cell.num q => some q
  | Cell.str s =>
    match leadingScore s with
    | some q => some q
    | none => cur
  | Cell.null => cur

/-- The record stored for a state with extracted score: Low/Middle/High
bands offset by the SES gap, and NationalAverage = nationalAvg || score
(a JS falsy test, so both a missing and a zero running average fall back
to the state's own score). -/
def mkBands (score : ℚ) (nat : Option ℚ) : ScoreBands :=
  ⟨some (score - sesGap), some score, some (score + sesGap),
   some (match nat with
         | some v => if v = 0 then score else v
         | none => score)⟩

/-- One iteration of the row-classification loop of loadAllNAEPData. -/
def classifyStep (tc : Nat) (st : NAEPTable) (row : Row) : NAEPTable :=
  let firstCell := trimStr (cellToStr (row.getD 0 Cell.null))
  if isAggregateCell firstCell then
    { st with nationalAvg := aggValue st.nationalAvg (row.getD tc Cell.null) }
  else
    match stateNameToCode firstCell with
    | some code =>
      match coerceScoreCell (row.getD tc Cell.null) with
      | some score =>
        { st with stateData := setKey st.stateData code (mkBands score st.nationalAvg) }
      | none => st
    | none => st

/-- The full classification loop from the data-start row. -/
def classifyRows (tc : Nat) (rows : List Row) : NAEPTable :=
  rows.foldl (classifyStep tc) ⟨[], none⟩

/-- The two fatal extraction failures of loadAllNAEPData. -/
inductive LoadError
  | parseStructureError
  | noYearColumnsError
deriving DecidableEq

/-- loadAllNAEPData of js/dataHelpers.js, from the parsed grid onward:
locate the header, enumerate year columns, pick the most recent year, and
classify every row from the data start; a throw is an error result. -/
def loadAllNAEPData (rows : List Row) : Except LoadError NAEPTable :=
  match locateHeader rows with
  | none => Except.error LoadError.parseStructureError
  | some (h, d) =>
    match findYearColumns (rows.getD h []) with
    | [] => Except.error LoadError.noYearColumnsError
    | c :: rest =>
      Except.ok (classifyRows (pickLatest c rest).1 (rows.drop d))

/-- fetchNAEP of js/dataHelpers.js (the per-call cache aside): on success
look the state up, falling back to an all-null record carrying the
national average; the catch branch turns any load error into the all-null,
all-default record. -/
def fetchNAEP (rows : List Row) (state : String) : ScoreBands :=
  match loadAllNAEPData rows with
  | Except.ok t =>
    match List.lookup state t.stateData with
    | some sc => sc
    | none => ⟨none, none, none, t.nationalAvg⟩
  | Except.error _ => ⟨none, none, none, none⟩

/-! ## Row classification (scripts/clean_naep_data.js) -/

/-- Collapse every whitespace run to a single space: the JS
replace(/\s+/g, ' '). The flag records whether the previous character was
whitespace (i.e. a run is already open). -/
def collapseWSAux : Bool → List Char → List Char
  | _, [] => []
  | prevWS, c :: rest =>
    if c.isWhitespace then
      if prevWS then collapseWSAux true rest
      else ' ' :: collapseWSAux true rest
    else c :: collapseWSAux false rest

/-- replace(/\s+/g, ' ') on a character list. -/
def collapseWS (cs : List Char) : List Char :=
  collapseWSAux false cs

/-- The aggregate-row test of scripts/clean_naep_data.js:
stateName.toLowerCase().replace(/\s+/g, ' ').includes('united states'). -/
def isAggregateClean (name : String) : Bool :=
  containsSub (String.mk (collapseWS (lowerStr name).data)) "united states"

/-- State-name resolution of scripts/clean_naep_data.js: exact object
lookup, then a case-insensitive scan over the entries. -/
def resolveClean (name : String) : Option String :=
  match List.lookup name cleanStateEntries with
  | some c => some c
  | none =>
    (cleanStateEntries.find? (fun p => lowerStr p.1 == lowerStr name)).map
      Prod.snd

/-- The per-year extraction fold shared by the aggregate and state branches
of parseNAEPFile: for every year with a known column whose cell coerces to
a positive number, set it in the accumulating map. -/
def cleanYearFold (row : Row) (ycols : List (Nat × Nat)) (years : List Nat)
    (m0 : List (Nat × ℚ)) : List (Nat × ℚ) :=
  years.foldl (fun m year =>
    match List.lookup year ycols with
    | some colIdx =>
      match coerceScoreCellClean (row.getD colIdx Cell.null) with
      | some score => setKey m year score
      | none => m
    | none => m) m0

/-- The table built by parseNAEPFile: per-state year→score maps plus the
national average per year. -/
structure CleanTable where
  stateData : List (String × List (Nat × ℚ))
  nationalAvgByYear : List (Nat × ℚ)
deriving DecidableEq

/-- One iteration of the row loop of parseNAEPFile. -/
def cleanStep (years : List Nat) (ycols : List (Nat × Nat)) (st : CleanTable)
    (row : Row) : CleanTable :=
  let stateName := trimStr (cellToStr (row.getD 0 Cell.null))
  if stateName = "" then st
  else if isAggregateClean stateName then
    { st with nationalAvgByYear :=
        cleanYearFold row ycols years st.nationalAvgByYear }
  else
    match resolveClean stateName with
    | some code =>
      let yearScores := cleanYearFold row ycols years []
      if yearScores = [] then st
      else { st with stateData := setKey st.stateData code yearScores }
    | none => st

/-! ## Metric derivation layer -/

/-- From js/dataOutcomes.js, toLiteracyScore: 320 - litP1 * 2, null on
null/NaN input. -/
def toLiteracyScore (litP1Percent : Option ℚ) : Option ℚ :=
  match litP1Percent with
  | none => none
  | some p => some (320 - p * 2)

/-- From js/dataOutcomes.js, levelFromScore: threshold bucketing with
'Unknown' for null/NaN. -/
def levelFromScore (score : Option ℚ) : String :=
  match score with
  | none => "Unknown"
  | some s =>
    if s < 200 then "Below Basic"
    else if s < 240 then "Basic"
    else if s < 280 then "Proficient"
    else "Advanced"

/-- Modelled from the spec: category bucketing stated as "evaluate
thresholds in ascending order of upper bound; return the first label whose
upper bound exceeds the value; if the value exceeds all bounds, return the
final label". Used to check levelFromScore refines that description. -/
def bucketThresholds (s : ℚ) : String :=
  match [((200 : ℚ), "Below Basic"), (240, "Basic"),
         (280, "Proficient")].find? (fun t => decide (s < t.1)) with
  | some t => t.2
  | none => "Advanced"

/-- From js/dataHelpers.js, getSESCategory. -/
def getSESCategory (povertyRate : Option ℚ) : String :=
  match povertyRate with
  | none => "Unknown"
  | some r =>
    if r ≥ 30 then "Low"
    else if r ≥ 15 then "Middle"
    else "High"

/-- Rank of a SES label, Low lowest; used to state that the classification
is antitone in the poverty rate. -/
def sesRank (c : String) : Nat :=
  if c = "Low" then 0 else if c = "Middle" then 1 else if c = "High" then 2 else 3

/-- From js/visualization1.js, getStateScore: the SES adjustment applied to
a looked-up base score. The JS guard is the falsiness test (!score), which
fires on null, undefined, NaN and 0. -/
def getStateScore (score : Option ℚ) (ses : String) : Option ℚ :=
  match score with
  | none => none
  | some s =>
    if s = 0 then none
    else if ses = "Low" then some (s - sesGap)
    else if ses = "High" then some (s + sesGap)
    else some s

/-! ## Linear regression (js/visualization5_integrated.js) -/

/-- Mean of the x components (d3.mean over the accessor d.spending). -/
def lrXMean (data : List (ℚ × ℚ)) : ℚ :=
  (data.map Prod.fst).sum / data.length

/-- Mean of the y components. -/
def lrYMean (data : List (ℚ × ℚ)) : ℚ :=
  (data.map Prod.snd).sum / data.length

/-- The least-squares numerator Σ (x - x̄)(y - ȳ). -/
def lrNum (data : List (ℚ × ℚ)) : ℚ :=
  (data.map (fun d => (d.1 - lrXMean data) * (d.2 - lrYMean data))).sum

/-- The least-squares denominator Σ (x - x̄)². -/
def lrDen (data : List (ℚ × ℚ)) : ℚ :=
  (data.map (fun d => (d.1 - lrXMean data) ^ 2)).sum

/-- From js/visualization5_integrated.js, calculateLinearRegression:
null for fewer than two points; otherwise slope = num/den when den ≠ 0 and
slope = 0 when den = 0, intercept = ȳ - slope·x̄. -/
def calculateLinearRegression (data : List (ℚ × ℚ)) : Option (ℚ × ℚ) :=
  if data.length < 2 then none
  else
    let slope := if lrDen data ≠ 0 then lrNum data / lrDen data else 0
    some (slope, lrYMean data - slope * lrXMean data)

end CS171

namespace CS171

/-! ## Claim C9: percent-to-score transform -/

/-- C9: the percent-to-score transform is the affine map
320 - p * 2, and returns null for a null (or NaN) input. -/
theorem toLiteracyScore_spec :
    (∀ p : ℚ, toLiteracyScore (some p) = some (320 - p * 2)) ∧
    toLiteracyScore none = none :=
  ⟨fun _ => rfl, rfl⟩

/-! ## Claim C10: SES classification -/

/-- C10: the SES classification is inverse to the poverty rate: rate ≥ 30
gives "Low", 15 ≤ rate < 30 gives "Middle", rate < 15 gives "High", a null
(or NaN) input gives "Unknown", and a higher rate always maps to an
equal-or-lower SES category. -/
theorem getSESCategory_spec :
    getSESCategory none = "Unknown" ∧
    (∀ r : ℚ, 30 ≤ r → getSESCategory (some r) = "Low") ∧
    (∀ r : ℚ, 15 ≤ r → r < 30 → getSESCategory (some r) = "Middle") ∧
    (∀ r : ℚ, r < 15 → getSESCategory (some r) = "High") ∧
    (∀ r₁ r₂ : ℚ, r₁ ≤ r₂ →
      sesRank (getSESCategory (some r₂)) ≤ sesRank (getSESCategory (some r₁))) := by
  refine ⟨rfl, ?_, ?_, ?_, ?_⟩
  · intro r h
    simp [getSESCategory, h]
  · intro r h1 h2
    simp [getSESCategory, h1, not_le.2 h2]
  · intro r h
    have h30 : ¬ (30 : ℚ) ≤ r := by linarith
    have h15 : ¬ (15 : ℚ) ≤ r := by linarith
    simp [getSESCategory, h30, h15]
  · intro r₁ r₂ h
    by_cases a1 : (30 : ℚ) ≤ r₁ <;> by_cases a2 : (15 : ℚ) ≤ r₁ <;>
      by_cases b1 : (30 : ℚ) ≤ r₂ <;> by_cases b2 : (15 : ℚ) ≤ r₂ <;>
      simp [getSESCategory, sesRank, a1, a2, b1, b2] <;> linarith

/-- Witness for C10 at concrete rates. -/
theorem getSESCategory_spec_witness :
    getSESCategory (some 35) = "Low" ∧ getSESCategory (some 20) = "Middle" ∧
    getSESCategory (some 10) = "High" ∧
    sesRank (getSESCategory (some 35)) ≤ sesRank (getSESCategory (some 10)) :=
  ⟨getSESCategory_spec.2.1 35 (by norm_num),
   getSESCategory_spec.2.2.1 20 (by norm_num) (by norm_num),
   getSESCategory_spec.2.2.2.1 10 (by norm_num),
   getSESCategory_spec.2.2.2.2 10 35 (by norm_num)⟩

/-! ## Claim C6: category bucketing -/

/-- C6: levelFromScore returns the first label whose upper bound strictly
exceeds the score (ties go to the upper bucket), the final label when the
score reaches all bounds, and "Unknown" for a null (or NaN) input; it
agrees with the spec's ordered-threshold bucketing; 199.9 maps to
"Below Basic" and exactly 200 maps to "Basic". -/
theorem levelFromScore_spec :
    levelFromScore none = "Unknown" ∧
    (∀ s : ℚ, s < 200 → levelFromScore (some s) = "Below Basic") ∧
    (∀ s : ℚ, 200 ≤ s → s < 240 → levelFromScore (some s) = "Basic") ∧
    (∀ s : ℚ, 240 ≤ s → s < 280 → levelFromScore (some s) = "Proficient") ∧
    (∀ s : ℚ, 280 ≤ s → levelFromScore (some s) = "Advanced") ∧
    (∀ s : ℚ, levelFromScore (some s) = bucketThresholds s) ∧
    levelFromScore (some (1999 / 10)) = "Below Basic" ∧
    levelFromScore (some 200) = "Basic" := by
  refine ⟨rfl, ?_, ?_, ?_, ?_, ?_, by norm_num [levelFromScore],
    by norm_num [levelFromScore]⟩
  · intro s h
    simp [levelFromScore, h]
  · intro s h1 h2
    simp [levelFromScore, not_lt.2 h1, h2]
  · intro s h1 h2
    have h3 : ¬ s < 200 := by linarith
    have h4 : ¬ s < 240 := by linarith
    simp [levelFromScore, h3, h4, h2]
  · intro s h1
    have h3 : ¬ s < 200 := by linarith
    have h4 : ¬ s < 240 := by linarith
    have h5 : ¬ s < 280 := by linarith
    simp [levelFromScore, h3, h4, h5]
  · intro s
    by_cases h1 : s < 200 <;> by_cases h2 : s < 240 <;> by_cases h3 : s < 280 <;>
      simp [levelFromScore, bucketThresholds, List.find?, h1, h2, h3]

/-- Witness for C6 at concrete scores. -/
theorem levelFromScore_spec_witness :
    levelFromScore (some 150) = "Below Basic" ∧
    levelFromScore (some 250) = "Proficient" ∧
    levelFromScore (some 300) = "Advanced" :=
  ⟨levelFromScore_spec.2.1 150 (by norm_num),
   levelFromScore_spec.2.2.2.1 250 (by norm_num) (by norm_num),
   levelFromScore_spec.2.2.2.2.1 300 (by norm_num)⟩

/-! ## Claim C1: linear regression -/

/-- Counterexample to C1 as stated: on two points with equal x the code
returns slope 0 and intercept ȳ = 3, a non-null result, whereas the claim
says the fit must return null when the denominator is zero. -/
theorem calculateLinearRegression_zero_variance_cx :
    calculateLinearRegression [((3 : ℚ), 1), (3, 5)] = some (0, 3) ∧
    calculateLinearRegression [((3 : ℚ), 1), (3, 5)] ≠ none := by
  constructor
  · simp [calculateLinearRegression, lrDen, lrNum, lrXMean, lrYMean]
    norm_num
  · intro h
    simp [calculateLinearRegression, lrDen, lrNum, lrXMean, lrYMean] at h

/-- C1 (amended): the fit returns null when there are fewer than 2 points;
with at least 2 points and a zero denominator it returns slope 0 and
intercept ȳ (no division by zero is performed); otherwise it returns the
standard least-squares slope and intercept. fit([(1,2),(2,4),(3,6)]) yields
slope 2 and intercept 0, and a single point yields null. -/
theorem calculateLinearRegression_spec (data : List (ℚ × ℚ)) :
    (data.length < 2 → calculateLinearRegression data = none) ∧
    (2 ≤ data.length → lrDen data = 0 →
      calculateLinearRegression data = some (0, lrYMean data)) ∧
    (2 ≤ data.length → lrDen data ≠ 0 →
      calculateLinearRegression data =
        some (lrNum data / lrDen data,
              lrYMean data - lrNum data / lrDen data * lrXMean data)) ∧
    calculateLinearRegression [((1 : ℚ), 2), (2, 4), (3, 6)] = some (2, 0) ∧
    calculateLinearRegression [((5 : ℚ), 10)] = none := by
  refine ⟨?_, ?_, ?_, ?_, by simp [calculateLinearRegression]⟩
  · intro h
    simp [calculateLinearRegression, h]
  · intro h hden
    simp [calculateLinearRegression, Nat.not_lt.2 h, hden]
  · intro h hden
    simp [calculateLinearRegression, Nat.not_lt.2 h, hden]
  · simp [calculateLinearRegression, lrDen, lrNum, lrXMean, lrYMean]
    norm_num

/-- Witness for C1: the nondegenerate branch of the amended theorem applied
to three concrete points with nonzero x-variance. -/
theorem calculateLinearRegression_spec_witness :
    2 ≤ ([((0 : ℚ), 1), (2, 5)] : List (ℚ × ℚ)).length ∧
    lrDen [((0 : ℚ), 1), (2, 5)] ≠ 0 ∧
    calculateLinearRegression [((0 : ℚ), 1), (2, 5)] =
      some (lrNum [((0 : ℚ), 1), (2, 5)] / lrDen [((0 : ℚ), 1), (2, 5)],
            lrYMean [((0 : ℚ), 1), (2, 5)] -
              lrNum [((0 : ℚ), 1), (2, 5)] / lrDen [((0 : ℚ), 1), (2, 5)] *
                lrXMean [((0 : ℚ), 1), (2, 5)]) :=
  ⟨by norm_num,
   by simp [lrDen, lrXMean]; norm_num,
   (calculateLinearRegression_spec _).2.2.1 (by norm_num)
     (by simp [lrDen, lrXMean]; norm_num)⟩

/-! ## Claim C5: SES adjustment -/

/-- Counterexample to C5 as stated: with a base value of 0 and category
"Low" the code returns null (the missing-value check is a JS falsiness
test, which 0 also triggers), not baseValue - gap = -18. -/
theorem getStateScore_zero_cx :
    getStateScore (some 0) "Low" = none ∧
    getStateScore (some 0) "Low" ≠ some ((0 : ℚ) - sesGap) := by
  constructor
  · simp [getStateScore]
  · simp [getStateScore]

/-- C5 (amended): for a nonzero base value the adjustment returns
base - 18 for "Low", base + 18 for "High" and the base unchanged for any
other category; a null base — or a base of 0, since the missing-value
check is a JS falsiness test — yields the null sentinel, never a number. -/
theorem getStateScore_spec :
    (∀ ses, getStateScore none ses = none) ∧
    (∀ ses, getStateScore (some 0) ses = none) ∧
    (∀ s : ℚ, s ≠ 0 → getStateScore (some s) "Low" = some (s - sesGap)) ∧
    (∀ s : ℚ, s ≠ 0 → getStateScore (some s) "High" = some (s + sesGap)) ∧
    (∀ (s : ℚ) (ses : String), s ≠ 0 → ses ≠ "Low" → ses ≠ "High" →
      getStateScore (some s) ses = some s) ∧
    getStateScore (some 250) "Low" = some 232 ∧
    getStateScore (some 250) "High" = some 268 ∧
    getStateScore (some 250) "Middle" = some 250 := by
  refine ⟨fun _ => rfl, fun ses => by simp [getStateScore], ?_, ?_, ?_,
    by simp [getStateScore, sesGap]; norm_num,
    by simp [getStateScore, sesGap]; norm_num,
    by simp [getStateScore, sesGap]⟩
  · intro s h
    simp [getStateScore, h]
  · intro s h
    simp [getStateScore, h]
  · intro s ses h h1 h2
    simp [getStateScore, h, h1, h2]

/-- Witness for C5 at the spec's concrete inputs. -/
theorem getStateScore_spec_witness :
    getStateScore (some 250) "Low" = some (250 - sesGap) ∧
    getStateScore (some 250) "High" = some (250 + sesGap) ∧
    getStateScore (some 250) "Other" = some 250 ∧
    getStateScore none "Low" = none :=
  ⟨getStateScore_spec.2.2.1 250 (by norm_num),
   getStateScore_spec.2.2.2.1 250 (by norm_num),
   getStateScore_spec.2.2.2.2.1 250 "Other" (by norm_num) (by decide) (by decide),
   getStateScore_spec.1 "Low"⟩

/-! ## Claim C4: strict ordering of the header-location strategies -/

/-- C4: the first strategy that succeeds determines the result; later
strategies are never attempted once an earlier one has succeeded, and
strategy 3 runs only when strategies 1 and 2 both fail. -/
theorem header_strategy_order (rows : List Row) :
    (∀ p, strategy1 rows 0 = some p → locateHeader rows = some p) ∧
    (strategy1 rows 0 = none →
      ∀ p, strategy2 rows 0 = some p → locateHeader rows = some p) ∧
    (strategy1 rows 0 = none → strategy2 rows 0 = none →
      locateHeader rows = strategy3 rows rows 0) := by
  refine ⟨?_, ?_, ?_⟩
  · intro p h
    simp [locateHeader, h]
  · intro h1 p h2
    simp [locateHeader, h1, h2]
  · intro h1 h2
    simp [locateHeader, h1, h2]

/-- A grid on which strategy 1 fails (no "state"/"jurisdiction" label) but
strategy 2 succeeds (three year cells in row 1). -/
def gridS2 : List Row :=
  [[Cell.str "Table X"],
   [Cell.str "x", Cell.str "1992", Cell.str "2000", Cell.str "2010"]]

/-- Witness for C4: on gridS2 strategy 1 fails, strategy 2 locates the
header at row 1 with data start 2, and the overall search returns exactly
strategy 2's answer. -/
theorem header_strategy_order_witness :
    strategy1 gridS2 0 = none ∧ strategy2 gridS2 0 = some (1, 2) ∧
    locateHeader gridS2 = some (1, 2) :=
  ⟨by decide, by decide, (header_strategy_order gridS2).2.1 (by decide) (1, 2) (by decide)⟩

/-! ## Claim C8: exact error conditions of extraction -/

/-- C8: extraction fails with the structure error exactly when no strategy
locates a header/data-start pair, fails with the no-year-columns error
exactly when a header is located but no column from index 1 on matches the
year pattern, and in both cases the result is an error, not a table. -/
theorem extraction_error_spec (rows : List Row) :
    (loadAllNAEPData rows = Except.error LoadError.parseStructureError ↔
      locateHeader rows = none) ∧
    (loadAllNAEPData rows = Except.error LoadError.noYearColumnsError ↔
      ∃ h d, locateHeader rows = some (h, d) ∧
        findYearColumns (rows.getD h []) = []) ∧
    (locateHeader rows = none ↔
      strategy1 rows 0 = none ∧ strategy2 rows 0 = none ∧
        strategy3 rows rows 0 = none) := by
  have key : ∀ h d, locateHeader rows = some (h, d) →
      loadAllNAEPData rows =
        (match findYearColumns (rows.getD h []) with
          | [] => Except.error LoadError.noYearColumnsError
          | c :: rest =>
            Except.ok (classifyRows (pickLatest c rest).1 (rows.drop d))) := by
    intro h d hl
    unfold loadAllNAEPData
    rw [hl]
  refine ⟨?_, ?_, ?_⟩
  · cases hl : locateHeader rows with
    | none => simp [loadAllNAEPData, hl]
    | some p =>
      obtain ⟨h, d⟩ := p
      rw [key h d hl]
      cases hy : findYearColumns (rows.getD h []) with
      | nil => simp [hl]
      | cons c rest => simp [hl]
  · cases hl : locateHeader rows with
    | none =>
      simp only [loadAllNAEPData, hl]
      constructor
      · intro h
        exact absurd h (by simp)
      · rintro ⟨h, d, hsome, _⟩
        exact Option.noConfusion hsome
    | some p =>
      obtain ⟨h, d⟩ := p
      rw [key h d hl]
      cases hy : findYearColumns (rows.getD h []) with
      | nil =>
        simp only [hy, hl]
        constructor
        · intro _
          exact ⟨h, d, rfl, hy⟩
        · intro _
          trivial
      | cons c rest =>
        simp only [hy, hl]
        constructor
        · intro hbad
          exact Except.noConfusion hbad
        · rintro ⟨h', d', hsome, hnil⟩
          have hh := Option.some.inj hsome
          have h1 : h = h' := congrArg Prod.fst hh
          subst h1
          rw [hy] at hnil
          exact List.noConfusion hnil
  · unfold locateHeader
    cases h1 : strategy1 rows 0 with
    | some p => simp
    | none =>
      cases h2 : strategy2 rows 0 with
      | some p => simp
      | none => simp

/-- Witness for C8: a grid whose header is found by the label strategy but
which has no year columns yields exactly the no-year-columns error. -/
theorem extraction_error_spec_witness :
    loadAllNAEPData [[Cell.str "State", Cell.str "junk"]] =
      Except.error LoadError.noYearColumnsError :=
  (extraction_error_spec [[Cell.str "State", Cell.str "junk"]]).2.1.mpr
    ⟨0, 1, by decide, by decide⟩

/-! ## Claim C3: structural failures and what the caller receives -/

/-- Counterexample to C3 as stated: on a structurally unparseable grid the
load step does fail with the structure error, but fetchNAEP hands its
caller the all-null default record instead of an error. -/
theorem structural_failure_default_cx :
    loadAllNAEPData ([] : List Row) = Except.error LoadError.parseStructureError ∧
    fetchNAEP [] "CA" = ⟨none, none, none, none⟩ :=
  ⟨rfl, rfl⟩

/-- C3 (amended): loadAllNAEPData surfaces a structural failure to its own
caller as an error (never a table); fetchNAEP, however, catches every load
error and returns the all-null default record to its caller instead of
propagating the failure. -/
theorem structural_failure_spec :
    (∀ rows, locateHeader rows = none →
      loadAllNAEPData rows = Except.error LoadError.parseStructureError) ∧
    (∀ rows state err, loadAllNAEPData rows = Except.error err →
      fetchNAEP rows state = ⟨none, none, none, none⟩) := by
  constructor
  · intro rows h
    simp [loadAllNAEPData, h]
  · intro rows state err h
    simp [fetchNAEP, h]

/-- Witness for C3 on the empty grid. -/
theorem structural_failure_spec_witness :
    loadAllNAEPData ([] : List Row) = Except.error LoadError.parseStructureError ∧
    fetchNAEP [] "TX" = ⟨none, none, none, none⟩ :=
  ⟨structural_failure_spec.1 [] (by decide),
   structural_failure_spec.2 [] "TX" LoadError.parseStructureError
     (structural_failure_spec.1 [] (by decide))⟩

/-! ## Claim C7: the aggregate row is excluded from the state records -/

/-- A successful lookup means the pair is in the association list. -/
theorem lookup_mem_pairs {k v : String} :
    ∀ {l : List (String × String)}, List.lookup k l = some v → (k, v) ∈ l := by
  intro l
  induction l with
  | nil => intro h; exact Option.noConfusion h
  | cons p t ih =>
    intro h
    obtain ⟨k', v'⟩ := p
    by_cases hk : (k == k') = true
    · rw [List.lookup, hk] at h
      have hkv : v' = v := Option.some.inj h
      have hkk : k = k' := eq_of_beq hk
      rw [hkk, hkv]
      exact List.mem_cons_self _ _
    · rw [List.lookup, Bool.of_not_eq_true hk] at h
      exact List.mem_cons_of_mem _ (ih h)

/-- The only state-table entry whose code is "National" is the aggregate
name "United States". -/
theorem stateNameToCode_national {s : String}
    (h : stateNameToCode s = some "National") : s = "United States" := by
  have hm : (s, "National") ∈ stateEntries := lookup_mem_pairs h
  simp [stateEntries, Prod.ext_iff] at hm
  exact hm

/-- Membership after a Map.set: the element was already there or is the
pair just set. -/
theorem setKey_mem {α β : Type} [BEq α] {q : α × β} {m : List (α × β)}
    {k : α} {v : β} (h : q ∈ setKey m k v) : q ∈ m ∨ q = (k, v) := by
  unfold setKey at h
  split at h
  · obtain ⟨p, hp, hpq⟩ := List.mem_map.1 h
    by_cases hc : (p.1 == k) = true
    · rw [if_pos hc] at hpq
      right
      exact hpq.symm
    · rw [if_neg hc] at hpq
      left
      rw [← hpq]
      exact hp
  · rcases List.mem_append.1 h with h1 | h1
    · left
      exact h1
    · right
      simpa using h1

/-- One classification step preserves the absence of the aggregate key. -/
theorem classifyStep_national (tc : Nat) (st : NAEPTable) (row : Row)
    (hinv : ∀ q ∈ st.stateData, q.1 ≠ "National") :
    ∀ q ∈ (classifyStep tc st row).stateData, q.1 ≠ "National" := by
  intro q hq
  simp only [classifyStep] at hq
  split at hq
  · exact hinv q hq
  · rename_i hagg
    split at hq
    · rename_i code hcode
      split at hq
      · rcases setKey_mem hq with h1 | h1
        · exact hinv q h1
        · subst h1
          intro hN
          have hcd : code = "National" := hN
          rw [hcd] at hcode
          have hUS := stateNameToCode_national hcode
          rw [hUS] at hagg
          exact hagg (by decide)
      · exact hinv q hq
    · exact hinv q hq

/-- The whole classification loop never stores the aggregate key. -/
theorem classifyRows_national (tc : Nat) :
    ∀ (rows : List Row) (st : NAEPTable),
      (∀ q ∈ st.stateData, q.1 ≠ "National") →
      ∀ q ∈ (rows.foldl (classifyStep tc) st).stateData, q.1 ≠ "National" := by
  intro rows
  induction rows with
  | nil => intro st h; simpa using h
  | cons r t ih =>
    intro st h
    rw [List.foldl_cons]
    exact ih _ (classifyStep_national tc st r h)

/-- C7: a row matching the aggregate pattern only updates the aggregate
value and never touches the state records, so no state-record key is the
aggregate key — in js/dataHelpers.js the key "National" (the code the
table assigns to "United States") never occurs in stateData, and in
scripts/clean_naep_data.js an aggregate row likewise leaves stateData
unchanged. -/
theorem aggregate_excluded :
    (∀ (tc : Nat) (st : NAEPTable) (row : Row),
      isAggregateCell (trimStr (cellToStr (row.getD 0 Cell.null))) = true →
      (classifyStep tc st row).stateData = st.stateData) ∧
    (∀ (tc : Nat) (rows : List Row),
      ∀ q ∈ (classifyRows tc rows).stateData, q.1 ≠ "National") ∧
    (∀ (years : List Nat) (ycols : List (Nat × Nat)) (st : CleanTable)
      (row : Row),
      isAggregateClean (trimStr (cellToStr (row.getD 0 Cell.null))) = true →
      (cleanStep years ycols st row).stateData = st.stateData) := by
  refine ⟨?_, ?_, ?_⟩
  · intro tc st row h
    simp only [classifyStep]
    rw [if_pos h]
  · intro tc rows
    exact classifyRows_national tc rows ⟨[], none⟩ (by simp)
  · intro years ycols st row h
    simp only [cleanStep]
    by_cases hempty : trimStr (cellToStr (row.getD 0 Cell.null)) = ""
    · rw [if_pos hempty]
    · rw [if_neg hempty, if_pos h]

/-- Witness for C7: an aggregate row leaves the (empty) state map empty in
both loaders. -/
theorem aggregate_excluded_witness :
    (classifyStep 1 ⟨[], none⟩ [Cell.str "United States", Cell.num 220]).stateData = [] ∧
    (cleanStep [2022] [(1, 2022)] ⟨[], []⟩
      [Cell.str "United States", Cell.num 220]).stateData = [] :=
  ⟨aggregate_excluded.1 1 ⟨[], none⟩ [Cell.str "United States", Cell.num 220]
     (by decide),
   aggregate_excluded.2.2 [2022] [(1, 2022)] ⟨[], []⟩
     [Cell.str "United States", Cell.num 220] (by decide)⟩

/-! ## Claim C2: the numeric cell-coercion rule -/

/-- Counterexample to C2 as stated: in js/dataHelpers.js the string cell
"0" is coerced to the value 0 and stored — the ≤ 0 rejection of the claim
is absent there, so extraction records California with a middle score of 0
from a "0" cell. -/
theorem cell_coercion_zero_cx :
    coerceScoreCell (Cell.str "0") = some 0 ∧
    (classifyRows 1 [[Cell.str "California", Cell.str "0"]]).stateData =
      [("CA", mkBands 0 none)] := by
  constructor
  · decide
  · rfl

/-- C2 (amended): in scripts/clean_naep_data.js the full coercion rule
holds — numbers accepted then filtered to > 0, strings via the leading
pattern then filtered to > 0, and "0", "-5", "N/A" all absent. In
js/dataHelpers.js the ≤ 0 rejection is missing: a numeric cell is accepted
as-is, a string cell yields exactly its leading number when the pattern
matches, so "0" is extracted as 0 — while "-5" and "N/A" remain absent
because the pattern requires a leading digit. -/
theorem cell_coercion_spec :
    (∀ q : ℚ, coerceScoreCellClean (Cell.num q) = if 0 < q then some q else none) ∧
    (∀ s q, leadingScore s = some q →
      coerceScoreCellClean (Cell.str s) = if 0 < q then some q else none) ∧
    (∀ s, leadingScore s = none → coerceScoreCellClean (Cell.str s) = none) ∧
    coerceScoreCellClean (Cell.str "0") = none ∧
    coerceScoreCellClean (Cell.str "-5") = none ∧
    coerceScoreCellClean (Cell.str "N/A") = none ∧
    (∀ q : ℚ, coerceScoreCell (Cell.num q) = some q) ∧
    (∀ s, coerceScoreCell (Cell.str s) = leadingScore s) ∧
    coerceScoreCell (Cell.str "-5") = none := by
  refine ⟨fun q => rfl, ?_, ?_, by decide, by decide, by decide,
    fun q => rfl, fun s => rfl, by decide⟩
  · intro s q h
    simp [coerceScoreCellClean, h]
  · intro s h
    simp [coerceScoreCellClean, h]

/-- Witness for C2: the string "231.5 (0.8)" coerces to exactly its leading
number 231.5 = 463/2 under both rules. -/
theorem cell_coercion_spec_witness :
    leadingScore "231.5 (0.8)" = some (463 / 2) ∧
    coerceScoreCellClean (Cell.str "231.5 (0.8)") =
      (if (0 : ℚ) < 463 / 2 then some (463 / 2) else none) := by
  have hd1 : digitsVal ['2', '3', '1'] = 231 := by decide
  have hd2 : digitsVal ['5'] = 5 := by decide
  have h : leadingScore "231.5 (0.8)" =
      some ((digitsVal ['2', '3', '1'] : ℚ) +
        (digitsVal ['5'] : ℚ) / 10 ^ (1 : ℕ)) := rfl
  rw [hd1, hd2] at h
  have h2 : leadingScore "231.5 (0.8)" = some (463 / 2) := by
    rw [h]
    norm_num
  exact ⟨h2, cell_coercion_spec.2.1 "231.5 (0.8)" (463 / 2) h2⟩

end CS171
